import Mathlib

/-!
Verification development for the mcp-metatrader5-server repository.

Python text is modelled as `List Char`; Python values crossing the
JSON / dict boundary are modelled by the inductive type `PyObj`.
All definitions are shallow embeddings of the corresponding Python
functions in `mt5_server_simple.py`, `test_mt5_server.py`, `cli.py`
and `asgi.py`.
-/

/-- Characters of a string literal, the representation of Python text. -/
def chars (s : String) : List Char := s.data

/-- Python objects as they occur in this codebase: JSON values and the
plain dicts returned by tool handlers. -/
inductive PyObj where
  | pbool (b : Bool)
  | pstr (s : List Char)
  | pint (n : Int)
  | pdict (fields : List (List Char × PyObj))
  | plist (elems : List PyObj)
  | pnone

/-- A Python dict, in insertion order, as returned by the tool handlers. -/
abbrev PyDict := List (List Char × PyObj)

/-- Lookup of a key in a Python dict (first binding wins). -/
def dictGet (d : PyDict) (k : List Char) : Option PyObj :=
  match d with
  | [] => none
  | (k', v) :: rest => if k' = k then some v else dictGet rest k

/-- Whether a Python object is a dict. -/
def isDict : PyObj → Bool
  | .pdict _ => true
  | _ => false

/-- Whether a Python object is a dict containing the given key
(Python `k in result`; on a non-dict the membership test raises, which
every caller in the source catches and treats as the false branch). -/
def hasKeyB (o : PyObj) (k : List Char) : Bool :=
  match o with
  | .pdict fields => fields.any (fun kv => kv.1 = k)
  | _ => false

/-- Whether a parsed body is a dict whose `result` value is itself a
dict.  The client's handshake success path evaluates
`result.get('result', \x7b\x7d).get('protocolVersion', 'Unknown')` in a
print before testing `'result' in result`; when the parse is not a dict
`result.get` does not exist, and when the `result` value is not a dict
the inner `.get` does not exist — either way an `AttributeError` is
raised and caught by the function's outer `except`, which returns
`False` with no further state change, exactly like a failed membership
test.  The handshake therefore succeeds exactly when this predicate
holds of the parsed body. -/
def resultIsDict (o : PyObj) : Bool :=
  match o with
  | .pdict fields =>
    match dictGet fields (chars "result") with
    | some (.pdict _) => true
    | _ => false
  | _ => false

/-- ASCII whitespace as recognised by Python `str.strip`. -/
def isPyWs (c : Char) : Bool :=
  c == ' ' || c == '\t' || c == '\n' || c == '\r' || c == '\x0b' || c == '\x0c'

/-- Python `str.strip()`. -/
def pyStrip (l : List Char) : List Char :=
  ((l.dropWhile isPyWs).reverse.dropWhile isPyWs).reverse

/-- Auxiliary splitter for `splitOnNl`, accumulating the current line. -/
def splitOnNlAux (acc : List Char) : List Char → List (List Char)
  | [] => [acc.reverse]
  | c :: cs => if c = '\n' then acc.reverse :: splitOnNlAux [] cs
               else splitOnNlAux (c :: acc) cs

/-- Python `s.split(chr(10))`. -/
def splitOnNl (l : List Char) : List (List Char) := splitOnNlAux [] l

/-- Boolean prefix test on character lists (Python `str.startswith`). -/
def beginsWith : List Char → List Char → Bool
  | [], _ => true
  | _ :: _, [] => false
  | a :: as, b :: bs => a == b && beginsWith as bs

/-! ## Model of Python json.loads

`json.loads` is the Python standard library, external to this repository;
it is modelled by a recursive-descent parser over the JSON subset the
code exercises (objects, arrays, strings without escape sequences,
integers, `true`/`false`/`null`).  Failure carries a message, standing
for the text of the raised exception. -/

/-- Digits of a natural number, with fuel so the kernel can evaluate. -/
def natDigitsAux : Nat → Nat → List Char
  | 0, _ => []
  | fuel + 1, n =>
    if n < 10 then [Nat.digitChar n]
    else natDigitsAux fuel (n / 10) ++ [Nat.digitChar (n % 10)]

/-- Decimal representation of a natural number. -/
def reprNat (n : Nat) : List Char := natDigitsAux (n + 1) n

/-- Decimal representation of an integer. -/
def reprInt : Int → List Char
  | .ofNat n => reprNat n
  | .negSucc n => '-' :: reprNat (n + 1)

/-- Skip JSON whitespace. -/
def jSkipWs : List Char → List Char
  | [] => []
  | c :: cs => if c == ' ' || c == '\t' || c == '\n' || c == '\r'
               then jSkipWs cs else c :: cs

/-- Read a JSON string body up to the closing quote (no escapes). -/
def jStrBody : List Char → Except (List Char) (List Char × List Char)
  | [] => .error (chars "unterminated string")
  | c :: cs =>
    if c == '"' then .ok ([], cs)
    else if c == '\\' then .error (chars "escape unsupported")
    else match jStrBody cs with
         | .ok (s, rest) => .ok (c :: s, rest)
         | .error e => .error e

/-- Read a run of decimal digits into a number. -/
def jDigits (acc : Nat) : List Char → Nat × List Char
  | [] => (acc, [])
  | c :: cs =>
    if c.isDigit then jDigits (acc * 10 + (c.toNat - '0'.toNat)) cs
    else (acc, c :: cs)

mutual

/-- Parse one JSON value from the input (fuel-indexed). -/
def jVal : Nat → List Char → Except (List Char) (PyObj × List Char)
  | 0, _ => .error (chars "fuel exhausted")
  | fuel + 1, l =>
    match jSkipWs l with
    | [] => .error (chars "expecting value")
    | c :: cs =>
      if c == '"' then
        match jStrBody cs with
        | .ok (s, rest) => .ok (.pstr s, rest)
        | .error e => .error e
      else if c == '{' then
        jFields fuel true (jSkipWs cs)
      else if c == '[' then
        jElems fuel true (jSkipWs cs)
      else if c.isDigit then
        let (n, rest) := jDigits 0 (c :: cs)
        .ok (.pint (Int.ofNat n), rest)
      else if c == '-' then
        match cs with
        | d :: ds =>
          if d.isDigit then
            let (n, rest) := jDigits 0 (d :: ds)
            .ok (.pint (-(Int.ofNat n)), rest)
          else .error (chars "expecting value")
        | [] => .error (chars "expecting value")
      else if beginsWith (chars "true") (c :: cs) then
        .ok (.pbool true, (c :: cs).drop 4)
      else if beginsWith (chars "false") (c :: cs) then
        .ok (.pbool false, (c :: cs).drop 5)
      else if beginsWith (chars "null") (c :: cs) then
        .ok (.pnone, (c :: cs).drop 4)
      else .error (chars "expecting value")

/-- Parse the fields of a JSON object after the opening brace
(`first` marks whether no field has been read yet). -/
def jFields : Nat → Bool → List Char → Except (List Char) (PyObj × List Char)
  | 0, _, _ => .error (chars "fuel exhausted")
  | fuel + 1, first, l =>
    match l with
    | [] => .error (chars "unterminated object")
    | c :: cs =>
      if c == '}' then .ok (.pdict [], cs)
      else if first then
        jField fuel [] (c :: cs)
      else .error (chars "expecting comma or end of object")

/-- Parse one `"key": value` field and the rest of the object. -/
def jField : Nat → PyDict → List Char → Except (List Char) (PyObj × List Char)
  | 0, _, _ => .error (chars "fuel exhausted")
  | fuel + 1, accFields, l =>
    match l with
    | c :: cs =>
      if c == '"' then
        match jStrBody cs with
        | .ok (k, rest) =>
          match jSkipWs rest with
          | ':' :: rest2 =>
            match jVal fuel rest2 with
            | .ok (v, rest3) =>
              match jSkipWs rest3 with
              | '}' :: rest4 => .ok (.pdict (accFields ++ [(k, v)]), rest4)
              | ',' :: rest4 => jField fuel (accFields ++ [(k, v)]) (jSkipWs rest4)
              | _ => .error (chars "expecting comma or end of object")
            | .error e => .error e
          | _ => .error (chars "expecting colon")
        | .error e => .error e
      else .error (chars "expecting property name")
    | [] => .error (chars "unterminated object")

/-- Parse the elements of a JSON array after the opening bracket. -/
def jElems : Nat → Bool → List Char → Except (List Char) (PyObj × List Char)
  | 0, _, _ => .error (chars "fuel exhausted")
  | fuel + 1, first, l =>
    match l with
    | [] => .error (chars "unterminated array")
    | c :: cs =>
      if c == ']' then .ok (.plist [], cs)
      else if first then
        jElem fuel [] (c :: cs)
      else .error (chars "expecting comma or end of array")

/-- Parse one array element and the rest of the array. -/
def jElem : Nat → List PyObj → List Char → Except (List Char) (PyObj × List Char)
  | 0, _, _ => .error (chars "fuel exhausted")
  | fuel + 1, accElems, l =>
    match jVal fuel l with
    | .ok (v, rest) =>
      match jSkipWs rest with
      | ']' :: rest2 => .ok (.plist (accElems ++ [v]), rest2)
      | ',' :: rest2 => jElem fuel (accElems ++ [v]) rest2
      | _ => .error (chars "expecting comma or end of array")
    | .error e => .error e

end

/-- Model of Python `json.loads`: parse a full JSON document, requiring
only whitespace after the value. -/
def jsonLoads (l : List Char) : Except (List Char) PyObj :=
  match jVal (2 * l.length + 16) l with
  | .ok (v, rest) =>
    match jSkipWs rest with
    | [] => .ok v
    | _ => .error (chars "extra data")
  | .error e => .error e

/-! ## The response-parsing function

Embedding of `MT5ServerTester.parse_sse_response` from
`src/test_mt5_server.py` (lines 27-45). -/

/-- The event-stream marker the parser looks for at the start of a line. -/
def dataMarker : List Char := chars "data: "

/-- The loop of `parse_sse_response`: the first line starting with the
marker yields the remainder of that line (`line[6:]`), later lines are
never examined (the Python loop breaks). -/
def findDataLine : List (List Char) → Option (List Char)
  | [] => none
  | l :: ls => if beginsWith dataMarker l then some (l.drop 6) else findDataLine ls

/-- The dict returned when no (non-empty) data line is present. -/
def noDataDict : PyObj :=
  .pdict [(chars "error", .pstr (chars "No data found in SSE response"))]

/-- The dict produced by the exception handler of `parse_sse_response`. -/
def sseParseFail (e : List Char) : PyObj :=
  .pdict [(chars "error", .pstr (chars "Failed to parse SSE: " ++ e))]

/-- Decode a non-empty data-line payload, converting a `json.loads`
exception into the handler dict. -/
def decodePayload (r : List Char) : PyObj :=
  match jsonLoads r with
  | .ok j => j
  | .error e => sseParseFail e

/-- Body of `parse_sse_response` after the strip-and-split step:
`if data_line: return json.loads(data_line) else: return the no-data dict`,
where an empty remainder is falsy in Python. -/
def sseFromLines (lines : List (List Char)) : PyObj :=
  match findDataLine lines with
  | some r => if r.isEmpty then noDataDict else decodePayload r
  | none => noDataDict

/-- Embedding of `MT5ServerTester.parse_sse_response`. -/
def parse_sse_response (s : List Char) : PyObj :=
  sseFromLines (splitOnNl (pyStrip s))

/-! ## The tool handlers of mt5_server_simple.py

The MetaTrader5 library is external to the repository; each handler makes
at most one library call plus possibly `mt5.last_error()`.  The outcomes
of those calls form the handler's environment.  Each handler returns the
list of underlying library calls it performed together with the Python
dict it returns; a raised exception from the library is an
`Except.error` carrying the text `str(e)`. -/

mutual

/-- Python `str()` of a value, fuel-indexed over nesting depth; used
only to render `mt5.last_error()` results inside f-strings. -/
def pyReprAux : Nat → PyObj → List Char
  | 0, _ => []
  | fuel + 1, o =>
    match o with
    | .pbool true => chars "True"
    | .pbool false => chars "False"
    | .pstr s => Char.ofNat 39 :: s ++ [Char.ofNat 39]
    | .pint n => reprInt n
    | .pnone => chars "None"
    | .pdict fields => chars "\x7b" ++ pyReprFields fuel true fields ++ chars "\x7d"
    | .plist es => chars "[" ++ pyReprElems fuel true es ++ chars "]"

/-- Render dict fields for `pyReprAux`. -/
def pyReprFields : Nat → Bool → PyDict → List Char
  | 0, _, _ => []
  | _, _, [] => []
  | fuel + 1, first, (k, v) :: rest =>
    (if first then [] else chars ", ") ++
      (Char.ofNat 39 :: k ++ [Char.ofNat 39]) ++ chars ": " ++
      pyReprAux fuel v ++ pyReprFields fuel false rest

/-- Render list elements for `pyReprAux`. -/
def pyReprElems : Nat → Bool → List PyObj → List Char
  | 0, _, _ => []
  | _, _, [] => []
  | fuel + 1, first, v :: rest =>
    (if first then [] else chars ", ") ++ pyReprAux fuel v ++
      pyReprElems fuel false rest

end

/-- Python `str()` at top level: strings render without quotes. -/
def pyStr (o : PyObj) : List Char :=
  match o with
  | .pstr s => s
  | _ => pyReprAux 1000 o

/-- Environment of the tool handlers: the module-level availability flag
and the outcome each underlying MetaTrader5 call would produce. -/
structure MT5Env where
  available : Bool
  initRes : Except (List Char) Bool
  lastErr : PyObj
  versionRes : Except (List Char) (Option (PyObj × PyObj × PyObj))
  termInfoRes : Except (List Char) (Option PyDict)
  shutdownRes : Except (List Char) PyObj
  pandasAvail : Bool
  numpyAvail : Bool

/-- Result of one handler call: the underlying library calls performed,
in order, and the returned dict. -/
abbrev HandlerOut := List (List Char) × PyDict

/-- Embedding of the `initialize` tool handler
(`mt5_server_simple.py` lines 55-92). -/
def initHandler (env : MT5Env) : HandlerOut :=
  if !env.available then
    ([], [(chars "success", .pbool false),
          (chars "message", .pstr (chars "MetaTrader5 package is not installed or available")),
          (chars "error", .pstr (chars "MT5_NOT_AVAILABLE"))])
  else
    match env.initRes with
    | .error e =>
      ([chars "mt5.initialize"],
       [(chars "success", .pbool false),
        (chars "message", .pstr (chars "MT5 initialization exception: " ++ e)),
        (chars "error", .pstr e)])
    | .ok ok =>
      if !ok then
        ([chars "mt5.initialize", chars "mt5.last_error"],
         [(chars "success", .pbool false),
          (chars "message", .pstr (chars "MT5 initialization failed with error code: " ++ pyStr env.lastErr)),
          (chars "error_code", env.lastErr)])
      else
        ([chars "mt5.initialize"],
         [(chars "success", .pbool true),
          (chars "message", .pstr (chars "MT5 initialized successfully"))])

/-- Embedding of the `get_version` tool handler
(`mt5_server_simple.py` lines 95-136). -/
def get_version (env : MT5Env) : HandlerOut :=
  if !env.available then
    ([], [(chars "success", .pbool false),
          (chars "message", .pstr (chars "MetaTrader5 package is not available")),
          (chars "error", .pstr (chars "MT5_NOT_AVAILABLE"))])
  else
    match env.versionRes with
    | .error e =>
      ([chars "mt5.version"],
       [(chars "success", .pbool false),
        (chars "message", .pstr (chars "Exception getting version: " ++ e)),
        (chars "error", .pstr e)])
    | .ok none =>
      ([chars "mt5.version", chars "mt5.last_error"],
       [(chars "success", .pbool false),
        (chars "message", .pstr (chars "Failed to get version, error code: " ++ pyStr env.lastErr)),
        (chars "error_code", env.lastErr)])
    | .ok (some (v0, v1, v2)) =>
      ([chars "mt5.version"],
       [(chars "success", .pbool true),
        (chars "message", .pstr (chars "Version retrieved successfully")),
        (chars "data", .pdict [(chars "version", v0), (chars "build", v1), (chars "date", v2)])])

/-- Embedding of the `get_terminal_info` tool handler
(`mt5_server_simple.py` lines 139-178). -/
def get_terminal_info (env : MT5Env) : HandlerOut :=
  if !env.available then
    ([], [(chars "success", .pbool false),
          (chars "message", .pstr (chars "MetaTrader5 package is not available")),
          (chars "error", .pstr (chars "MT5_NOT_AVAILABLE"))])
  else
    match env.termInfoRes with
    | .error e =>
      ([chars "mt5.terminal_info"],
       [(chars "success", .pbool false),
        (chars "message", .pstr (chars "Exception getting terminal info: " ++ e)),
        (chars "error", .pstr e)])
    | .ok none =>
      ([chars "mt5.terminal_info", chars "mt5.last_error"],
       [(chars "success", .pbool false),
        (chars "message", .pstr (chars "Failed to get terminal info, error code: " ++ pyStr env.lastErr)),
        (chars "error_code", env.lastErr)])
    | .ok (some info) =>
      ([chars "mt5.terminal_info"],
       [(chars "success", .pbool true),
        (chars "message", .pstr (chars "Terminal info retrieved successfully")),
        (chars "data", .pdict info)])

/-- Embedding of the `shutdown` tool handler
(`mt5_server_simple.py` lines 181-208); the underlying call's return
value is discarded by the source. -/
def shutdown (env : MT5Env) : HandlerOut :=
  if !env.available then
    ([], [(chars "success", .pbool true),
          (chars "message", .pstr (chars "MetaTrader5 package not available - nothing to shutdown"))])
  else
    match env.shutdownRes with
    | .error e =>
      ([chars "mt5.shutdown"],
       [(chars "success", .pbool false),
        (chars "message", .pstr (chars "Exception during shutdown: " ++ e)),
        (chars "error", .pstr e)])
    | .ok _ =>
      ([chars "mt5.shutdown"],
       [(chars "success", .pbool true),
        (chars "message", .pstr (chars "MT5 connection shut down successfully"))])

/-- Embedding of the `test_server` tool handler
(`mt5_server_simple.py` lines 211-229); it performs no library call and
always reports success. -/
def test_server (env : MT5Env) : HandlerOut :=
  ([], [(chars "success", .pbool true),
        (chars "message", .pstr (chars "Server is working correctly")),
        (chars "data", .pdict
          [(chars "mt5_available", .pbool env.available),
           (chars "pandas_available", .pbool env.pandasAvail),
           (chars "numpy_available", .pbool env.numpyAvail),
           (chars "server_name", .pstr (chars "MetaTrader 5 MCP Server")),
           (chars "version", .pstr (chars "1.0.0"))])])

/-! ## The session-negotiation test client of test_mt5_server.py

HTTP traffic is external: each POST's outcome is an input, either a
raised `requests` exception (`Except.error`) or a response carrying the
status code, the value of the `mcp-session-id` response header, and the
body text.  Each client method additionally returns the list of requests
it issued, each recording the target mount point, the session header the
client attached (from `self.session.headers`), and the JSON-RPC method
of the posted message. -/

/-- An HTTP response as the client observes it. -/
structure HttpResp where
  status : Nat
  sessionHdr : Option (List Char)
  body : List Char

/-- Outcome of one POST: a response, or a raised exception's text. -/
abbrev HttpOutcome := Except (List Char) HttpResp

/-- A request issued by the client. -/
structure WireReq where
  url : List Char
  sessionHeader : Option (List Char)
  rpcMethod : List Char

/-- Client state: `self.session_id`, the `mcp-session-id` entry of
`self.session.headers`, `self._initialized`, `self._sse_working`. -/
structure ClientState where
  sessionId : Option (List Char)
  headerSessionId : Option (List Char)
  inited : Bool
  sseWorking : Bool

/-- The fresh client of `MT5ServerTester.__init__`. -/
def initialClient : ClientState :=
  { sessionId := none, headerSessionId := none, inited := false, sseWorking := false }

/-- The streamable-HTTP mount point `self.mcp_url` (path part). -/
def mcpUrl : List Char := chars "/mt5/mcp/"

/-- The event-stream mount point `self.sse_url` (path part). -/
def sseUrl : List Char := chars "/"

/-- Capture the `mcp-session-id` response header into the client state,
as done on a 200 response (lines 76-84 and 265-272 of the source). -/
def captureSession (st : ClientState) (r : HttpResp) : ClientState :=
  match r.sessionHdr with
  | some sid => { st with sessionId := some sid, headerSessionId := some sid }
  | none => st

/-- Embedding of `MT5ServerTester.test_sse_endpoint` (lines 236-288):
POST the JSON-RPC handshake to the event-stream mount point; on a 200
response capture any session header, and succeed exactly when the
stripped body is non-empty and its parse is a dict whose `result` value
is a dict (line 276 evaluates `result.get('result', ...).get(...)`
before the membership test at line 278, so a non-dict parse or a
non-dict `result` value raises `AttributeError`, which the outer
`except` catches, returning `False` with no further state change —
observationally identical to the failed membership test; see
`resultIsDict`).  Any raised exception is caught and yields `false`. -/
def testSseEndpoint (st : ClientState) (resp : HttpOutcome) :
    ClientState × Bool × List WireReq :=
  let req : WireReq :=
    { url := sseUrl, sessionHeader := st.headerSessionId, rpcMethod := chars "initialize" }
  match resp with
  | .error _ => (st, false, [req])
  | .ok r =>
    if r.status = 200 then
      let st1 := captureSession st r
      if (pyStrip r.body).isEmpty then (st1, false, [req])
      else if resultIsDict (parse_sse_response r.body) then
        ({ st1 with sseWorking := true }, true, [req])
      else (st1, false, [req])
    else (st, false, [req])

/-- Embedding of `MT5ServerTester.establish_session` (lines 47-129):
POST the handshake to the streamable mount point; on a 200 response
capture any session header; succeed exactly when the stripped body is
non-empty and its parse is a dict whose `result` value is a dict (line
89 evaluates `result.get('result', ...).get(...)` before the membership
test at line 91, so a non-dict parse or a non-dict `result` value
raises `AttributeError`, caught by the outer `except`, returning
`False` with no further state change — observationally identical to the
failed membership test; see `resultIsDict`).  On success
`self._initialized` is set and a `tools/list` probe is issued through
the same session (its outcome never changes the returned boolean).
Any raised exception is caught and yields `false`. -/
def establishSession (st : ClientState) (resp : HttpOutcome) :
    ClientState × Bool × List WireReq :=
  let req : WireReq :=
    { url := mcpUrl, sessionHeader := st.headerSessionId, rpcMethod := chars "initialize" }
  match resp with
  | .error _ => (st, false, [req])
  | .ok r =>
    if r.status = 200 then
      let st1 := captureSession st r
      if (pyStrip r.body).isEmpty then (st1, false, [req])
      else if resultIsDict (parse_sse_response r.body) then
        let st2 := { st1 with inited := true }
        let probe : WireReq :=
          { url := mcpUrl, sessionHeader := st2.headerSessionId,
            rpcMethod := chars "tools/list" }
        (st2, true, [req, probe])
      else (st1, false, [req])
    else (st, false, [req])

/-- Embedding of `MT5ServerTester.test_mcp_initialize` (lines 290-304):
try the event-stream mount point first; on failure fall back to the
streamable mount point; return the composite boolean. -/
def testMcpInit (st : ClientState) (respSse respMcp : HttpOutcome) :
    ClientState × Bool × List WireReq :=
  let (st1, ok1, log1) := testSseEndpoint st respSse
  if ok1 then (st1, true, log1)
  else
    let (st2, ok2, log2) := establishSession st1 respMcp
    (st2, ok2, log1 ++ log2)

/-- Embedding of `MT5ServerTester.mcp_call_with_session` (lines 131-163):
raise if no session was established; otherwise POST the call with the
session's current headers; a 200 response is parsed (an all-whitespace
body stands for a trivial success dict); a non-200 response raises
`Exception(...)` and the client state is left untouched — the client
never renegotiates the handshake here. -/
def mcpCallWithSession (st : ClientState) (method : List Char) (resp : HttpOutcome) :
    Except (List Char) PyObj × List WireReq :=
  if !st.inited then
    (.error (chars "Session not initialized. Call establish_session() first."), [])
  else
    let req : WireReq :=
      { url := mcpUrl, sessionHeader := st.headerSessionId, rpcMethod := method }
    match resp with
    | .error e => (.error e, [req])
    | .ok r =>
      if r.status = 200 then
        if (pyStrip r.body).isEmpty then
          (.ok (.pdict [(chars "result", .pdict [(chars "success", .pbool true)])]), [req])
        else (.ok (parse_sse_response r.body), [req])
      else
        (.error (chars "HTTP " ++ reprNat r.status ++ chars ": " ++
          (if r.body.isEmpty then chars "No response body" else r.body.take 500)), [req])

/-! ## Host/port selection of the process entrypoints -/

/-- Host selected by `cli.py dev` (lines 39-48): the `--host` flag when
supplied, else the argparse default; environment variables are never
consulted by this entrypoint. -/
def cliDevHost (hostFlag : Option (List Char)) : List Char :=
  match hostFlag with
  | some h => h
  | none => chars "127.0.0.1"

/-- Port selected by `cli.py dev`: the `--port` flag when supplied, else
the argparse default. -/
def cliDevPort (portFlag : Option Int) : Int :=
  match portFlag with
  | some p => p
  | none => 8000

/-- Host selected by the `asgi.py` entrypoint (lines 69-70):
`os.environ.get` with a hard-coded default; no CLI flag exists. -/
def asgiHost (envHost : Option (List Char)) : List Char :=
  match envHost with
  | some h => h
  | none => chars "0.0.0.0"

/-- Port selected by the `asgi.py` entrypoint (`int()` conversion of the
environment string is abstracted to the converted value). -/
def asgiPort (envPort : Option Int) : Int :=
  match envPort with
  | some p => p
  | none => 8000

/-- Modelled from the spec: the claimed three-level precedence
"CLI flags > environment variables > hard-coded defaults" for a
configuration value. -/
def specPrecedence (cliFlag envVar : Option (List Char)) (dflt : List Char) : List Char :=
  match cliFlag with
  | some v => v
  | none =>
    match envVar with
    | some v => v
    | none => dflt

/-- The event-stream body used by the spec's worked example. -/
def exampleSseBody : List Char :=
  chars "event: message\ndata: \x7b\"result\": \x7b\"protocolVersion\": \"2024-11-05\"\x7d\x7d\n\n"

/-- The parsed payload of the worked example. -/
def exampleSsePayload : PyObj :=
  .pdict [(chars "result", .pdict [(chars "protocolVersion", .pstr (chars "2024-11-05"))])]

/-- A list is a boolean prefix of itself followed by anything. -/
lemma beginsWith_self_append (p r : List Char) : beginsWith p (p ++ r) = true := by
  induction p with
  | nil => rfl
  | cons a as ih => simp [beginsWith, ih]

/-- When no line starts with the data marker, the loop finds nothing. -/
lemma findDataLine_no_data (l : List (List Char))
    (h : ∀ x ∈ l, beginsWith dataMarker x = false) : findDataLine l = none := by
  induction l with
  | nil => rfl
  | cons a as ih =>
    have ha := h a (List.mem_cons_self a as)
    simp only [findDataLine, ha, if_neg]
    exact ih fun x hx => h x (List.mem_cons_of_mem a hx)

/-- Dropping the marker's length from the marker followed by the payload
leaves the payload. -/
lemma dataMarker_drop (r : List Char) : (dataMarker ++ r).drop 6 = r := by
  rfl

/-- The loop finds the payload of the first line that starts with the
data marker. -/
lemma findDataLine_hit (pre post : List (List Char)) (r : List Char)
    (hpre : ∀ x ∈ pre, beginsWith dataMarker x = false) :
    findDataLine (pre ++ (dataMarker ++ r) :: post) = some r := by
  induction pre with
  | nil =>
    simp only [List.nil_append, findDataLine, beginsWith_self_append, if_pos]
    exact congrArg some (dataMarker_drop r)
  | cons a as ih =>
    have ha := hpre a (List.mem_cons_self a as)
    simp only [List.cons_append, findDataLine, ha, if_neg]
    exact ih fun x hx => hpre x (List.mem_cons_of_mem a hx)

/-- Once some line of the first block starts with the data marker, lines
after that block never influence the loop. -/
lemma findDataLine_append_of_has (l1 l2 : List (List Char))
    (h : l1.any (fun x => beginsWith dataMarker x) = true) :
    findDataLine (l1 ++ l2) = findDataLine l1 := by
  induction l1 with
  | nil => simp at h
  | cons a as ih =>
    by_cases ha : beginsWith dataMarker a = true
    · simp [findDataLine, ha]
    · have ha' : beginsWith dataMarker a = false := by
        cases hb : beginsWith dataMarker a
        · rfl
        · exact absurd hb ha
      have h' : as.any (fun x => beginsWith dataMarker x) = true := by
        simpa [List.any_cons, ha'] using h
      simp [findDataLine, ha', ih h']

/-! ## Claim theorems -/

/-- Concrete environment with the MetaTrader5 dependency unavailable. -/
def envNoMT5 : MT5Env :=
  { available := false, initRes := .ok true, lastErr := .pnone,
    versionRes := .ok none, termInfoRes := .ok none,
    shutdownRes := .ok .pnone, pandasAvail := false, numpyAvail := false }

/-- Concrete environment where every underlying call raises. -/
def envRaise : MT5Env :=
  { available := true, initRes := .error (chars "boom"),
    lastErr := .pnone, versionRes := .error (chars "boom"),
    termInfoRes := .error (chars "boom"),
    shutdownRes := .error (chars "boom"),
    pandasAvail := false, numpyAvail := false }

/-- Concrete environment where the underlying shutdown call returns. -/
def envShutdownOk : MT5Env :=
  { available := true, initRes := .ok true, lastErr := .pnone,
    versionRes := .ok none, termInfoRes := .ok none,
    shutdownRes := .ok (.pbool false), pandasAvail := false,
    numpyAvail := false }

/-- C1 counterexample: with the dependency unavailable, the `shutdown`
handler returns success = true and carries no `error` key at all, and
the `test_server` handler likewise returns success = true with no
`error` key — refuting the claim that every registered handler
(including these two) returns success = false with error
"MT5_NOT_AVAILABLE". -/
theorem c1_counterexample :
    dictGet (shutdown envNoMT5).2 (chars "success") = some (.pbool true) ∧
    dictGet (shutdown envNoMT5).2 (chars "error") = none ∧
    dictGet (test_server envNoMT5).2 (chars "success") = some (.pbool true) ∧
    dictGet (test_server envNoMT5).2 (chars "error") = none :=
  ⟨rfl, rfl, rfl, rfl⟩

/-- C1 (amended): when the dependency is unavailable, `initialize`,
`get_version` and `get_terminal_info` return success = false with error
"MT5_NOT_AVAILABLE" and perform no underlying call; `shutdown` returns
success = true ("nothing to shutdown") with no underlying call; and
`test_server` returns success = true reporting availability, with no
underlying call. -/
theorem c1_amended (env : MT5Env) (h : env.available = false) :
    initHandler env =
      ([], [(chars "success", .pbool false),
            (chars "message", .pstr (chars "MetaTrader5 package is not installed or available")),
            (chars "error", .pstr (chars "MT5_NOT_AVAILABLE"))]) ∧
    get_version env =
      ([], [(chars "success", .pbool false),
            (chars "message", .pstr (chars "MetaTrader5 package is not available")),
            (chars "error", .pstr (chars "MT5_NOT_AVAILABLE"))]) ∧
    get_terminal_info env =
      ([], [(chars "success", .pbool false),
            (chars "message", .pstr (chars "MetaTrader5 package is not available")),
            (chars "error", .pstr (chars "MT5_NOT_AVAILABLE"))]) ∧
    shutdown env =
      ([], [(chars "success", .pbool true),
            (chars "message", .pstr (chars "MetaTrader5 package not available - nothing to shutdown"))]) ∧
    test_server env =
      ([], [(chars "success", .pbool true),
            (chars "message", .pstr (chars "Server is working correctly")),
            (chars "data", .pdict
              [(chars "mt5_available", .pbool env.available),
               (chars "pandas_available", .pbool env.pandasAvail),
               (chars "numpy_available", .pbool env.numpyAvail),
               (chars "server_name", .pstr (chars "MetaTrader 5 MCP Server")),
               (chars "version", .pstr (chars "1.0.0"))])]) := by
  refine ⟨?_, ?_, ?_, ?_, rfl⟩ <;>
    simp [initHandler, get_version, get_terminal_info, shutdown, h]

/-- Witness for the amended C1 at a concrete unavailable environment. -/
theorem c1_amended_witness :
    envNoMT5.available = false ∧
    shutdown envNoMT5 =
      ([], [(chars "success", .pbool true),
            (chars "message", .pstr (chars "MetaTrader5 package not available - nothing to shutdown"))]) :=
  ⟨rfl, (c1_amended envNoMT5 rfl).2.2.2.1⟩

/-- C5: with the dependency available, every handler that calls the
underlying library converts a raised exception with text `e` into a
returned dict with success = false, a message, and error = `e`; the
handlers are total, so no exception escapes them. -/
theorem c5_exception_caught (env : MT5Env) (e : List Char) (h : env.available = true) :
    (env.initRes = .error e → initHandler env =
      ([chars "mt5.initialize"],
       [(chars "success", .pbool false),
        (chars "message", .pstr (chars "MT5 initialization exception: " ++ e)),
        (chars "error", .pstr e)])) ∧
    (env.versionRes = .error e → get_version env =
      ([chars "mt5.version"],
       [(chars "success", .pbool false),
        (chars "message", .pstr (chars "Exception getting version: " ++ e)),
        (chars "error", .pstr e)])) ∧
    (env.termInfoRes = .error e → get_terminal_info env =
      ([chars "mt5.terminal_info"],
       [(chars "success", .pbool false),
        (chars "message", .pstr (chars "Exception getting terminal info: " ++ e)),
        (chars "error", .pstr e)])) ∧
    (env.shutdownRes = .error e → shutdown env =
      ([chars "mt5.shutdown"],
       [(chars "success", .pbool false),
        (chars "message", .pstr (chars "Exception during shutdown: " ++ e)),
        (chars "error", .pstr e)])) := by
  refine ⟨fun he => ?_, fun he => ?_, fun he => ?_, fun he => ?_⟩ <;>
    simp [initHandler, get_version, get_terminal_info, shutdown, h, he]

/-- Witness for C5 at a concrete raising environment. -/
theorem c5_witness :
    envRaise.available = true ∧ envRaise.initRes = .error (chars "boom") ∧
    initHandler envRaise =
      ([chars "mt5.initialize"],
       [(chars "success", .pbool false),
        (chars "message", .pstr (chars "MT5 initialization exception: " ++ chars "boom")),
        (chars "error", .pstr (chars "boom"))]) :=
  ⟨rfl, rfl, (c5_exception_caught envRaise (chars "boom") rfl).1 rfl⟩

/-- C6: with the dependency unavailable, `get_version` returns exactly
the dict with success = false, message "MetaTrader5 package is not
available" and error "MT5_NOT_AVAILABLE". -/
theorem c6_get_version_unavailable (env : MT5Env) (h : env.available = false) :
    (get_version env).2 =
      [(chars "success", .pbool false),
       (chars "message", .pstr (chars "MetaTrader5 package is not available")),
       (chars "error", .pstr (chars "MT5_NOT_AVAILABLE"))] := by
  simp [get_version, h]

/-- Witness for C6 at a concrete unavailable environment. -/
theorem c6_witness :
    envNoMT5.available = false ∧
    (get_version envNoMT5).2 =
      [(chars "success", .pbool false),
       (chars "message", .pstr (chars "MetaTrader5 package is not available")),
       (chars "error", .pstr (chars "MT5_NOT_AVAILABLE"))] :=
  ⟨rfl, c6_get_version_unavailable envNoMT5 rfl⟩

/-- C8: whenever the underlying shutdown call returns (any value `v`,
which the handler discards) the `shutdown` handler reports
success = true; no hypothesis about prior initialization is needed, so
calling it before any initialize succeeds trivially. -/
theorem c8_shutdown_trivial (env : MT5Env) (v : PyObj)
    (h : env.available = true) (hs : env.shutdownRes = .ok v) :
    (shutdown env).2 =
      [(chars "success", .pbool true),
       (chars "message", .pstr (chars "MT5 connection shut down successfully"))] := by
  simp [shutdown, h, hs]

/-- Witness for C8 at a concrete environment whose underlying shutdown
call returns the value False. -/
theorem c8_witness :
    envShutdownOk.available = true ∧
    envShutdownOk.shutdownRes = .ok (.pbool false) ∧
    (shutdown envShutdownOk).2 =
      [(chars "success", .pbool true),
       (chars "message", .pstr (chars "MT5 connection shut down successfully"))] :=
  ⟨rfl, rfl, c8_shutdown_trivial envShutdownOk (.pbool false) rfl rfl⟩

/-- C7: the response-parsing function applied to the empty string
returns exactly the dict mapping "error" to
"No data found in SSE response". -/
theorem c7_empty_string :
    parse_sse_response (chars "") =
      .pdict [(chars "error", .pstr (chars "No data found in SSE response"))] :=
  rfl

/-- C2 counterexample: a body that is plain JSON with no `data: ` line
is not parsed as JSON by the function — it yields the no-data dict,
while decoding the whole body would yield the dict with key "a".  The
worked example itself does hold. -/
theorem c2_counterexample :
    parse_sse_response (chars "\x7b\"a\": 1\x7d") = noDataDict ∧
    jsonLoads (chars "\x7b\"a\": 1\x7d") = .ok (.pdict [(chars "a", .pint 1)]) ∧
    hasKeyB noDataDict (chars "a") = false ∧
    hasKeyB (.pdict [(chars "a", .pint 1)]) (chars "a") = true :=
  ⟨rfl, rfl, rfl, rfl⟩

/-- C2 (amended): when the body contains a `data: ` line with a
non-empty remainder, the function returns the JSON decoded from the
first such line (and in particular the worked event-stream example
parses to the expected payload); when no line carries a non-empty
`data: ` payload, it returns the no-data dict — it never parses the
whole body as JSON. -/
theorem c2_amended (pre post : List (List Char)) (r : List Char)
    (hpre : ∀ x ∈ pre, beginsWith dataMarker x = false) (hr : r ≠ []) :
    sseFromLines (pre ++ (dataMarker ++ r) :: post) = decodePayload r ∧
    sseFromLines (pre ++ dataMarker :: post) = noDataDict ∧
    (∀ l : List (List Char), (∀ x ∈ l, beginsWith dataMarker x = false) →
      sseFromLines l = noDataDict) ∧
    parse_sse_response exampleSseBody = exampleSsePayload := by
  refine ⟨?_, ?_, fun l hl => ?_, rfl⟩
  · rw [sseFromLines, findDataLine_hit pre post r hpre]
    have : r.isEmpty = false := by
      cases r with
      | nil => exact absurd rfl hr
      | cons a as => rfl
    simp [this]
  · have : (pre ++ dataMarker :: post) = pre ++ (dataMarker ++ []) :: post := by
      simp
    rw [this, sseFromLines, findDataLine_hit pre post [] hpre]
    rfl
  · rw [sseFromLines, findDataLine_no_data l hl]

/-- Witness for the amended C2: an event line followed by a data line
carrying an empty JSON object. -/
theorem c2_amended_witness :
    (∀ x ∈ [chars "event: message"], beginsWith dataMarker x = false) ∧
    chars "\x7b\x7d" ≠ [] ∧
    sseFromLines ([chars "event: message"] ++
        (dataMarker ++ chars "\x7b\x7d") :: [chars ""]) =
      decodePayload (chars "\x7b\x7d") :=
  ⟨by decide, by decide,
    (c2_amended [chars "event: message"] [chars ""] (chars "\x7b\x7d")
      (by decide) (by decide)).1⟩

/-- C10 counterexample: on the body "data: 5" the function returns the
decoded integer 5, which is not a dictionary — refuting the claim that
it returns a dictionary for every input string. -/
theorem c10_counterexample :
    parse_sse_response (chars "data: 5") = .pint 5 ∧ isDict (.pint 5) = false :=
  ⟨rfl, rfl⟩

/-- C10 (amended): the response-parsing function is a total function
(so no exception escapes it) returning the decoded value — not
necessarily a dictionary; lines after the first `data: ` line never
influence the result; and a payload on which the JSON decoder raises is
converted to the dict mapping "error" to "Failed to parse SSE: ...". -/
theorem c10_amended :
    (∀ l1 l2 : List (List Char), l1.any (fun x => beginsWith dataMarker x) = true →
      sseFromLines (l1 ++ l2) = sseFromLines l1) ∧
    (∀ r e, jsonLoads r = .error e → r ≠ [] →
      sseFromLines [dataMarker ++ r] = sseParseFail e) ∧
    (∀ s, parse_sse_response s = sseFromLines (splitOnNl (pyStrip s))) := by
  refine ⟨fun l1 l2 h => ?_, fun r e he hr => ?_, fun s => rfl⟩
  · rw [sseFromLines, sseFromLines, findDataLine_append_of_has l1 l2 h]
  · have hhit := findDataLine_hit [] [] r (by intro x hx; cases hx)
    simp only [List.nil_append] at hhit
    rw [sseFromLines, hhit]
    have : r.isEmpty = false := by
      cases r with
      | nil => exact absurd rfl hr
      | cons a as => rfl
    simp [this, decodePayload, he]

/-- Witness for the amended C10: a second data line is ignored, at
concrete inputs. -/
theorem c10_amended_witness :
    ([chars "data: 1"].any (fun x => beginsWith dataMarker x) = true) ∧
    sseFromLines ([chars "data: 1"] ++ [chars "data: 2"]) =
      sseFromLines [chars "data: 1"] :=
  ⟨by decide, c10_amended.1 [chars "data: 1"] [chars "data: 2"] (by decide)⟩

/-- A handshake attempt against one mount point fails: the POST raised,
or the response has a non-200 status, an all-whitespace body, or a body
whose parse carries no `result` key. -/
def attemptFails (o : HttpOutcome) : Prop :=
  match o with
  | .error _ => True
  | .ok r => r.status ≠ 200 ∨ (pyStrip r.body).isEmpty = true ∨
      hasKeyB (parse_sse_response r.body) (chars "result") = false

/-- A key on which the membership test fails is absent from the dict. -/
lemma dictGet_none (d : PyDict) (k : List Char)
    (h : d.any (fun kv => kv.1 = k) = false) : dictGet d k = none := by
  induction d with
  | nil => rfl
  | cons kv rest ih =>
    simp only [List.any_cons, Bool.or_eq_false_iff, decide_eq_false_iff_not] at h
    simp only [dictGet, if_neg h.1]
    exact ih h.2

/-- A body without a `result` key in particular has no dict-valued
`result` entry: in the source the two cases return through the failed
membership test and the caught `AttributeError` respectively, with the
same observable outcome. -/
lemma resultIsDict_false_of_no_key (o : PyObj)
    (h : hasKeyB o (chars "result") = false) : resultIsDict o = false := by
  cases o with
  | pdict fields =>
    simp only [hasKeyB] at h
    simp only [resultIsDict, dictGet_none fields (chars "result") h]
  | pbool b => rfl
  | pstr s => rfl
  | pint n => rfl
  | plist es => rfl
  | pnone => rfl

/-- The event-stream attempt always issues exactly one request, to the
event-stream mount point, with the handshake method. -/
lemma testSseEndpoint_log (st : ClientState) (rs : HttpOutcome) :
    (testSseEndpoint st rs).2.2 =
      [{ url := sseUrl, sessionHeader := st.headerSessionId,
         rpcMethod := chars "initialize" }] := by
  rcases rs with e | r
  · rfl
  · simp only [testSseEndpoint]
    by_cases h : r.status = 200
    · by_cases h2 : (pyStrip r.body).isEmpty = true
      · simp [h, h2]
      · by_cases h3 : resultIsDict (parse_sse_response r.body) = true
        · simp [h, h2, h3]
        · simp [h, h2, h3]
    · simp [h]

/-- A failing event-stream attempt reports `false`. -/
lemma testSseEndpoint_fail (st : ClientState) (rs : HttpOutcome)
    (h : attemptFails rs) : (testSseEndpoint st rs).2.1 = false := by
  rcases rs with e | r
  · rfl
  · simp only [attemptFails] at h
    simp only [testSseEndpoint]
    by_cases h200 : r.status = 200
    · rcases h with h | h | h
      · exact absurd h200 h
      · simp [h200, h]
      · by_cases hemp : (pyStrip r.body).isEmpty = true
        · simp [h200, hemp]
        · simp [h200, hemp, resultIsDict_false_of_no_key _ h]
    · simp [h200]

/-- A failing streamable attempt reports `false` and issues exactly the
one handshake request. -/
lemma establishSession_fail (st : ClientState) (rm : HttpOutcome)
    (h : attemptFails rm) :
    (establishSession st rm).2.1 = false ∧
    (establishSession st rm).2.2 =
      [{ url := mcpUrl, sessionHeader := st.headerSessionId,
         rpcMethod := chars "initialize" }] := by
  rcases rm with e | r
  · exact ⟨rfl, rfl⟩
  · simp only [attemptFails] at h
    simp only [establishSession]
    by_cases h200 : r.status = 200
    · rcases h with h | h | h
      · exact absurd h200 h
      · simp [h200, h]
      · by_cases hemp : (pyStrip r.body).isEmpty = true
        · simp [h200, hemp]
        · simp [h200, hemp, resultIsDict_false_of_no_key _ h]
    · simp [h200]

/-- C3: the handshake tries the event-stream mount point first, falls
back to the streamable mount point with the same JSON-RPC method, and
when both attempts fail (raised exception, non-200 status, empty body,
or missing `result` key) it reports the failure as the boolean `false`
of a total function rather than letting an exception escape. -/
theorem c3_handshake_failure (st : ClientState) (rs rm : HttpOutcome)
    (h1 : attemptFails rs) (h2 : attemptFails rm) :
    (testMcpInit st rs rm).2.1 = false ∧
    (testMcpInit st rs rm).2.2.map WireReq.url = [sseUrl, mcpUrl] ∧
    (∀ q ∈ (testMcpInit st rs rm).2.2, q.rpcMethod = chars "initialize") := by
  have hsse := testSseEndpoint_fail st rs h1
  have hlog := testSseEndpoint_log st rs
  have hest := establishSession_fail (testSseEndpoint st rs).1 rm h2
  simp only [testMcpInit, hsse, if_neg (by simp : ¬ (false = true))]
  refine ⟨hest.1, ?_, ?_⟩
  · rw [hlog, hest.2]
    rfl
  · intro q hq
    rw [hlog, hest.2] at hq
    simp only [List.mem_append, List.mem_singleton] at hq
    rcases hq with rfl | rfl <;> rfl

/-- Witness for C3: both mount points raise a transport exception. -/
theorem c3_witness :
    attemptFails (.error (chars "timeout")) ∧
    attemptFails (.error (chars "connection refused")) ∧
    (testMcpInit initialClient (.error (chars "timeout"))
      (.error (chars "connection refused"))).2.1 = false :=
  ⟨trivial, trivial,
    (c3_handshake_failure initialClient (.error (chars "timeout"))
      (.error (chars "connection refused")) trivial trivial).1⟩

/-- With a session established, a call through the session issues
exactly one request, to the streamable mount point, carrying the
session's current header and the given JSON-RPC method. -/
lemma mcpCallWithSession_log (st : ClientState) (m : List Char)
    (resp : HttpOutcome) (h : st.inited = true) :
    (mcpCallWithSession st m resp).2 =
      [{ url := mcpUrl, sessionHeader := st.headerSessionId, rpcMethod := m }] := by
  simp only [mcpCallWithSession, h]
  rcases resp with e | r
  · rfl
  · by_cases h200 : r.status = 200
    · by_cases hemp : (pyStrip r.body).isEmpty = true
      · simp [h200, hemp]
      · simp [h200, hemp]
    · simp [h200]

/-- With a session established, a non-200 response makes the call raise
(the embedded call returns the exception text). -/
lemma mcpCallWithSession_non200 (st : ClientState) (m : List Char)
    (r : HttpResp) (h : st.inited = true) (h200 : r.status ≠ 200) :
    (mcpCallWithSession st m (.ok r)).1 =
      .error (chars "HTTP " ++ reprNat r.status ++ chars ": " ++
        (if r.body.isEmpty then chars "No response body" else r.body.take 500)) := by
  simp [mcpCallWithSession, h, h200]

/-- The handshake response of the C4 counterexample: status 200, a
session header present, and a body whose parse is a dict containing a
`result` key — but one mapping to the non-dict value 5. -/
def resultNotDictResp : HttpResp :=
  { status := 200, sessionHdr := some (chars "sess-2"),
    body := chars "data: \x7b\"result\": 5\x7d" }

/-- C4 counterexample: every condition of the claim holds (status 200,
body containing a `result` key, `mcp-session-id` header present), yet
the handshake returns False, never sets the established flag, issues no
`tools/list` probe (only the one handshake request), and a subsequent
session call raises before issuing any request — because the source's
success path evaluates `result['result'].get(...)` and the resulting
`AttributeError` is caught as failure. -/
theorem c4_counterexample :
    resultNotDictResp.status = 200 ∧
    hasKeyB (parse_sse_response resultNotDictResp.body) (chars "result") = true ∧
    resultNotDictResp.sessionHdr = some (chars "sess-2") ∧
    (establishSession initialClient (.ok resultNotDictResp)).2.1 = false ∧
    (establishSession initialClient (.ok resultNotDictResp)).1.inited = false ∧
    (establishSession initialClient (.ok resultNotDictResp)).2.2.map WireReq.rpcMethod =
      [chars "initialize"] ∧
    (mcpCallWithSession (establishSession initialClient (.ok resultNotDictResp)).1
        (chars "tools/list") (.ok resultNotDictResp)).2 = [] :=
  ⟨rfl, rfl, rfl, rfl, rfl, rfl, rfl⟩

/-- C4 (amended): a 200 handshake response whose parsed body is a dict
whose `result` value is itself a dict (the success path reads
`result['result'].get(...)`, so a mere `result` key is not enough) and
which carries an `mcp-session-id` header leaves the client with that
header value recorded; the handshake's own follow-up probe and every
subsequent call through the session carry exactly that header; and a
later non-200 response makes the call raise while issuing only the one
non-handshake request — no renegotiation. -/
theorem c4_session_header (st : ClientState) (r : HttpResp) (v : List Char)
    (h200 : r.status = 200)
    (hbody : (pyStrip r.body).isEmpty = false)
    (hres : resultIsDict (parse_sse_response r.body) = true)
    (hsid : r.sessionHdr = some v) :
    (establishSession st (.ok r)).1.headerSessionId = some v ∧
    (establishSession st (.ok r)).2.1 = true ∧
    (establishSession st (.ok r)).2.2.map WireReq.sessionHeader =
      [st.headerSessionId, some v] ∧
    (∀ m resp, ∀ q ∈ (mcpCallWithSession (establishSession st (.ok r)).1 m resp).2,
      q.sessionHeader = some v) ∧
    (∀ m r2, r2.status ≠ 200 →
      (mcpCallWithSession (establishSession st (.ok r)).1 m (.ok r2)).1 =
        .error (chars "HTTP " ++ reprNat r2.status ++ chars ": " ++
          (if r2.body.isEmpty then chars "No response body" else r2.body.take 500)) ∧
      (mcpCallWithSession (establishSession st (.ok r)).1 m (.ok r2)).2 =
        [{ url := mcpUrl, sessionHeader := some v, rpcMethod := m }]) := by
  have hes : establishSession st (.ok r) =
      ({ sessionId := some v, headerSessionId := some v, inited := true,
         sseWorking := st.sseWorking },
       true,
       [{ url := mcpUrl, sessionHeader := st.headerSessionId,
          rpcMethod := chars "initialize" },
        { url := mcpUrl, sessionHeader := some v,
          rpcMethod := chars "tools/list" }]) := by
    simp [establishSession, captureSession, h200, hbody, hres, hsid]
  refine ⟨by rw [hes], by rw [hes], by rw [hes]; rfl, ?_, ?_⟩
  · intro m resp q hq
    rw [hes, mcpCallWithSession_log _ m resp rfl] at hq
    simp only [List.mem_singleton] at hq
    rw [hq]
  · intro m r2 h2
    rw [hes]
    exact ⟨mcpCallWithSession_non200 _ m r2 rfl h2,
      mcpCallWithSession_log _ m (.ok r2) rfl⟩

/-- The handshake response used by the C4 witness. -/
def witnessHandshakeResp : HttpResp :=
  { status := 200, sessionHdr := some (chars "sess-1"), body := exampleSseBody }

/-- Witness for C4 at a concrete 200 handshake response carrying a
session header and the worked example body. -/
theorem c4_witness :
    witnessHandshakeResp.status = 200 ∧
    (pyStrip witnessHandshakeResp.body).isEmpty = false ∧
    resultIsDict (parse_sse_response witnessHandshakeResp.body) = true ∧
    witnessHandshakeResp.sessionHdr = some (chars "sess-1") ∧
    (establishSession initialClient (.ok witnessHandshakeResp)).1.headerSessionId =
      some (chars "sess-1") :=
  ⟨rfl, rfl, by decide, rfl,
    (c4_session_header initialClient witnessHandshakeResp (chars "sess-1")
      rfl rfl (by decide) rfl).1⟩

/-- Modelled from the spec: the claimed three-level precedence for an
integer-valued configuration entry such as the port. -/
def specPrecedenceInt (cliFlag envVar : Option Int) (dflt : Int) : Int :=
  match cliFlag with
  | some v => v
  | none =>
    match envVar with
    | some v => v
    | none => dflt

/-- C9 counterexample: run the `cli.py dev` entrypoint with no `--host`
flag while the host environment variable is set — the launcher uses the
argparse default "127.0.0.1" and ignores the environment, whereas the
claimed precedence would select the environment value "10.0.0.1". -/
theorem c9_counterexample :
    cliDevHost none = chars "127.0.0.1" ∧
    specPrecedence none (some (chars "10.0.0.1")) (chars "127.0.0.1") =
      chars "10.0.0.1" ∧
    chars "127.0.0.1" ≠ chars "10.0.0.1" :=
  ⟨rfl, rfl, by decide⟩

/-- C9 (amended): no entrypoint implements the full three-level
precedence.  The `cli.py dev` entrypoint resolves host and port as
CLI flag over hard-coded default, never consulting the environment,
while the `asgi.py` entrypoint resolves them as environment variable
over hard-coded default, accepting no CLI flag — each coincides with
the claimed precedence chain with its missing layer empty. -/
theorem c9_amended (f e : Option (List Char)) (pf pe : Option Int) :
    cliDevHost f = specPrecedence f none (chars "127.0.0.1") ∧
    asgiHost e = specPrecedence none e (chars "0.0.0.0") ∧
    cliDevPort pf = specPrecedenceInt pf none 8000 ∧
    asgiPort pe = specPrecedenceInt none pe 8000 := by
  refine ⟨?_, ?_, ?_, ?_⟩
  · cases f <;> rfl
  · cases e <;> rfl
  · cases pf <;> rfl
  · cases pe <;> rfl
